import Mathlib

/-!
Shallow embedding of src/server.js (HubSpot CRM connector).

The program keeps one global mutable token slot (hubspotTokens, line 23), an
optional token file (TOKEN_PATH), and an isProduction flag. We model the three
of them as a SystemState record that every operation threads explicitly.

Timestamps are JS millisecond epoch values, modelled as Int (Date.now() is a
non-negative number; theorems that need it take 0 <= now as a hypothesis).
A field that a JS object may lack is an Option. JS truthiness on the values
this program tests is: a string is truthy iff non-empty, a number is truthy
iff non-zero, undefined/null are falsy.

One numeric subtlety: when an upstream body omits expires_in, the JS
expression Date.now() + response.data.expires_in * 1000 evaluates to NaN.
NaN is falsy and every >= comparison against it is false, which is exactly
how undefined behaves at every place this program reads expiry_date
(check-token line 336, contacts line 445, lists line 509). So we model the
derived expiry as Option Int, none standing for that non-numeric value.

Network I/O is modelled by passing the upstream HTTP outcome as an argument
(axios resolves with a body on 2xx, throws with an optional response status
otherwise) and recording in the result whether the code path reached the
network call at all.
-/

namespace HubspotConnector

/-- The stored token object. The callback (line 286) stores
access_token / refresh_token / expiry_date; the refresh path (line 75)
additionally stores expires_in. Any field may be absent (undefined). -/
structure TokenPair where
  access_token : Option String
  refresh_token : Option String
  expiry_date : Option Int
  expires_in : Option Int
deriving Repr, DecidableEq

/-- JS truthiness of a possibly-absent string: truthy iff present and
non-empty. -/
def jsTruthyStr : Option String → Bool
  | none => false
  | some s => !s.isEmpty

/-- JS truthiness of a possibly-absent number: truthy iff present and
non-zero. -/
def jsTruthyInt : Option Int → Bool
  | none => false
  | some n => n != 0

/-- Contents of the token file at TOKEN_PATH: either a well-formed JSON
serialization of a token object, or bytes that JSON.parse rejects. -/
inductive FileContent where
  | validTokens (t : TokenPair)
  | corrupt
deriving Repr, DecidableEq

/-- The process state the token lifecycle touches: the global hubspotTokens
slot (line 23), the token file (none when no file exists at TOKEN_PATH), and
the isProduction flag (line 12). -/
structure SystemState where
  hubspotTokens : Option TokenPair
  tokenFile : Option FileContent
  isProduction : Bool
deriving Repr, DecidableEq

/-- Body of an upstream token-endpoint response, as the program reads it:
response.data.access_token, response.data.refresh_token,
response.data.expires_in, each possibly absent. -/
structure TokenResponse where
  access_token : Option String
  refresh_token : Option String
  expires_in : Option Int
deriving Repr, DecidableEq

/-- Outcome of an axios request: success carries the 2xx body; failure is the
thrown error, carrying error.response.status when a response exists. -/
inductive HttpResult (α : Type) where
  | success (body : α)
  | failure (status : Option Int)
deriving Repr, DecidableEq

/-- saveTokens (src/server.js lines 39-52): in production the file write is
skipped; otherwise fs.writeFileSync is attempted, and a throw is caught and
logged (second component) without disturbing anything else. fsWriteFails
models the filesystem refusing the write. -/
def saveTokens (fsWriteFails : Bool) (s : SystemState) (tokens : TokenPair) :
    SystemState × Option String :=
  if s.isProduction then (s, none)
  else if fsWriteFails then (s, some "Error saving tokens to file")
  else ({ s with tokenFile := some (FileContent.validTokens tokens) }, none)

/-- The recurring source pattern hubspotTokens = tokens; saveTokens(tokens)
(lines 75-84 and 286-293): replace the in-memory slot, then best-effort
persist. -/
def setTokens (fsWriteFails : Bool) (s : SystemState) (pair : TokenPair) :
    SystemState × Option String :=
  saveTokens fsWriteFails { s with hubspotTokens := some pair } pair

/-- Startup token load (src/server.js lines 26-36): in production, or with no
file present, the slot stays null; otherwise the file is read and parsed, and
a JSON.parse throw is caught (line 34) leaving the slot null. -/
def loadTokens (isProduction : Bool) (file : Option FileContent) :
    Option TokenPair :=
  if isProduction then none
  else
    match file with
    | none => none
    | some (FileContent.validTokens t) => some t
    | some FileContent.corrupt => none

/-- Result of refreshToken: the state after the call, the boolean the
function returns, and whether the axios.post to the token endpoint was
reached. -/
structure RefreshResult where
  state : SystemState
  success : Bool
  networkCalled : Bool
deriving Repr, DecidableEq

/-- refreshToken (src/server.js lines 55-96). Guard (line 56): bail out
before any network when the slot is empty or its refresh_token is falsy.
Otherwise POST to the token endpoint; a throw (non-2xx) is caught returning
false (line 94). On a 2xx body, line 73 tests response.data &&
response.data.access_token — response.data is an object here, so only the
access_token truthiness decides. The new token object (lines 75-81) spreads
the old one and then overwrites access_token, refresh_token, expires_in and
expiry_date with the response fields, whether present or not; expiry_date is
Date.now() + expires_in * 1000 (none here standing for the NaN produced when
expires_in is absent, see the header note). -/
def refreshToken (fsWriteFails : Bool) (s : SystemState) (now : Int)
    (resp : HttpResult TokenResponse) : RefreshResult :=
  match s.hubspotTokens with
  | none => ⟨s, false, false⟩
  | some tok =>
    if !(jsTruthyStr tok.refresh_token) then ⟨s, false, false⟩
    else
      match resp with
      | .failure _ => ⟨s, false, true⟩
      | .success data =>
        if jsTruthyStr data.access_token then
          let newTok : TokenPair :=
            { access_token := data.access_token
              refresh_token := data.refresh_token
              expires_in := data.expires_in
              expiry_date := data.expires_in.map (fun e => now + e * 1000) }
          ⟨(setTokens fsWriteFails s newTok).1, true, true⟩
        else ⟨s, false, true⟩

/-- What GET /oauth/callback answers with. -/
inductive CallbackResult where
  | missingCode
  | redirectContacts
  | authFailedError (status : Option Int)
deriving Repr, DecidableEq

/-- Result of the callback handler: state afterwards, the HTTP answer, and
whether the code-exchange network call was reached. -/
structure CallbackOutput where
  state : SystemState
  result : CallbackResult
  networkCalled : Bool
deriving Repr, DecidableEq

/-- GET /oauth/callback (src/server.js lines 252-310). A falsy code answers
400 before any network (lines 255-258). Otherwise the code is exchanged; a
throw answers 500 (line 308). On a 2xx body the tokens are stored
unconditionally (lines 286-290) — note there is no access_token presence
check on this path — persisted via saveTokens, and the handler redirects to
the contacts endpoint. The stored object has no expires_in field. -/
def handleOAuthCallback (fsWriteFails : Bool) (s : SystemState) (now : Int)
    (code : Option String) (resp : HttpResult TokenResponse) : CallbackOutput :=
  if !(jsTruthyStr code) then ⟨s, .missingCode, false⟩
  else
    match resp with
    | .failure status => ⟨s, .authFailedError status, true⟩
    | .success data =>
      let newTok : TokenPair :=
        { access_token := data.access_token
          refresh_token := data.refresh_token
          expiry_date := data.expires_in.map (fun e => now + e * 1000)
          expires_in := none }
      ⟨(setTokens fsWriteFails s newTok).1, .redirectContacts, true⟩

/-- The JSON answered by GET /api/hubspot/check-token. -/
structure TokenStatus where
  hasToken : Bool
  isExpired : Bool
deriving Repr, DecidableEq

/-- GET /api/hubspot/check-token (src/server.js lines 334-348). Line 336:
isExpired = hasToken && hubspotTokens.expiry_date ? Date.now() >=
hubspotTokens.expiry_date : true. A missing slot or a falsy expiry_date
(absent, 0, or the NaN case) selects the constant true branch; otherwise the
comparison is against the exact expiry instant, with no safety margin. -/
def checkTokenStatus (s : SystemState) (now : Int) : TokenStatus :=
  let hasToken := s.hubspotTokens.isSome
  let isExpired :=
    match s.hubspotTokens with
    | none => true
    | some tok =>
      match tok.expiry_date with
      | none => true
      | some e => if e != 0 then decide (now ≥ e) else true
  ⟨hasToken, isExpired⟩

/-- The proactive expiry check shared by the contacts handler (line 445) and
the lists handler (line 509): hubspotTokens.expiry_date && Date.now() >=
hubspotTokens.expiry_date - 5 * 60 * 1000. -/
def tokenNeedsRefresh (tok : TokenPair) (now : Int) : Bool :=
  match tok.expiry_date with
  | none => false
  | some e => e != 0 && decide (now ≥ e - 5 * 60 * 1000)

/-- What a data-fetch handler answers with. -/
inductive ProxyOutcome where
  | authRequired
  | authFailed
  | fetched (count : Nat)
  | upstreamError (status : Option Int)
deriving Repr, DecidableEq

/-- Result of a data-fetch handler: state afterwards, the HTTP answer, how
many times refreshToken was invoked, and how many upstream data requests
were issued. -/
structure ProxyResult where
  state : SystemState
  outcome : ProxyOutcome
  refreshAttempts : Nat
  upstreamAttempts : Nat
deriving Repr, DecidableEq

/-- Body of the upstream contacts response; the handler reads
response.data.results || []. -/
structure ContactsBody where
  results : Option (List String)
deriving Repr, DecidableEq

/-- Body of the upstream lists response; the handler reads
response.data.lists || []. -/
structure ListsBody where
  lists : Option (List String)
deriving Repr, DecidableEq

/-- GET /api/hubspot/contacts (src/server.js lines 434-495). Answer 401 when
the slot is empty or access_token is falsy (lines 437-442). When the
proactive expiry check fires, run refreshToken once; a failed refresh
answers 401 (lines 448-454). Then issue the upstream GET exactly once; a 2xx
answers with the results count, and any throw is caught at line 483 and
answered 500 directly — this catch performs no refresh and no retry. -/
def handleContacts (fsWriteFails : Bool) (s : SystemState) (now : Int)
    (refreshResp : HttpResult TokenResponse)
    (upstreamResp : HttpResult ContactsBody) : ProxyResult :=
  match s.hubspotTokens with
  | none => ⟨s, .authRequired, 0, 0⟩
  | some tok =>
    if !(jsTruthyStr tok.access_token) then ⟨s, .authRequired, 0, 0⟩
    else if tokenNeedsRefresh tok now then
      let r := refreshToken fsWriteFails s now refreshResp
      if r.success then
        match upstreamResp with
        | .success body => ⟨r.state, .fetched (body.results.getD []).length, 1, 1⟩
        | .failure status => ⟨r.state, .upstreamError status, 1, 1⟩
      else ⟨r.state, .authFailed, 1, 0⟩
    else
      match upstreamResp with
      | .success body => ⟨s, .fetched (body.results.getD []).length, 0, 1⟩
      | .failure status => ⟨s, .upstreamError status, 0, 1⟩

/-- GET /api/hubspot/lists (src/server.js lines 498-557). Same token logic
as the contacts handler: 401 on a missing/falsy token (lines 501-506), one
proactive refresh when near expiry with 401 on refresh failure (lines
509-519), then one upstream GET whose throw is caught at line 542 and
answered 500 with no refresh and no retry. -/
def handleLists (fsWriteFails : Bool) (s : SystemState) (now : Int)
    (refreshResp : HttpResult TokenResponse)
    (upstreamResp : HttpResult ListsBody) : ProxyResult :=
  match s.hubspotTokens with
  | none => ⟨s, .authRequired, 0, 0⟩
  | some tok =>
    if !(jsTruthyStr tok.access_token) then ⟨s, .authRequired, 0, 0⟩
    else if tokenNeedsRefresh tok now then
      let r := refreshToken fsWriteFails s now refreshResp
      if r.success then
        match upstreamResp with
        | .success body => ⟨r.state, .fetched (body.lists.getD []).length, 1, 1⟩
        | .failure status => ⟨r.state, .upstreamError status, 1, 1⟩
      else ⟨r.state, .authFailed, 1, 0⟩
    else
      match upstreamResp with
      | .success body => ⟨s, .fetched (body.lists.getD []).length, 0, 1⟩
      | .failure status => ⟨s, .upstreamError status, 0, 1⟩

/-- Best-effort persistence never touches the in-memory slot. -/
theorem saveTokens_hubspotTokens (f : Bool) (s : SystemState) (t : TokenPair) :
    (saveTokens f s t).1.hubspotTokens = s.hubspotTokens := by
  unfold saveTokens
  split
  · rfl
  · split <;> rfl

/-- setTokens always leaves the new pair in the in-memory slot. -/
theorem setTokens_hubspotTokens (f : Bool) (s : SystemState) (p : TokenPair) :
    (setTokens f s p).1.hubspotTokens = some p := by
  unfold setTokens
  rw [saveTokens_hubspotTokens]

/-! Claim C1. -/

/-- The stored pair before the C1 refresh scenario. -/
def c1_prior : TokenPair :=
  { access_token := some "oldAccess"
    refresh_token := some "oldRefresh"
    expiry_date := some 1000000
    expires_in := none }

/-- State holding that pair, in development, with no token file yet. -/
def c1_state : SystemState := ⟨some c1_prior, none, false⟩

/-- The C1 scenario response: a 2xx body with access_token and expires_in
but no refresh_token field. -/
def c1_resp : HttpResult TokenResponse :=
  .success { access_token := some "new123", refresh_token := none, expires_in := some 3600 }

/-- The refresh outcome at time 5000000. -/
def c1_result : RefreshResult := refreshToken false c1_state 5000000 c1_resp

/-- Claim C1: a successful refresh whose response omits refresh_token is
claimed to retain the previous refreshToken and set expiresAt to the
exchange time plus expires_in. The code computes expiresAt as claimed, but
lines 75-81 overwrite refresh_token with the absent response field, so the
stored pair loses the previous value (and the very next refresh then fails
the line-56 guard without even reaching the network). This theorem
evaluates the code at the failing input. -/
theorem c1_refresh_token_overwritten_when_omitted :
    c1_result.success = true ∧
    c1_result.state.hubspotTokens.map TokenPair.refresh_token = some none ∧
    c1_result.state.hubspotTokens.map TokenPair.refresh_token ≠
      some (some "oldRefresh") ∧
    c1_result.state.hubspotTokens.map TokenPair.expiry_date =
      some (some (5000000 + 3600 * 1000)) ∧
    (refreshToken false c1_result.state 6000000 c1_resp).success = false ∧
    (refreshToken false c1_result.state 6000000 c1_resp).networkCalled = false := by
  decide

/-! Claim C8. -/

/-- Claim C8: setTokens always leaves the newly set pair in memory, whatever
the persistence environment does; in development with a failing filesystem
write the failure is only logged (an error message is returned, the file is
untouched) and the in-memory value is still the new pair. -/
theorem c8_set_best_effort_persistence (fsW : Bool) (s : SystemState)
    (pair : TokenPair) :
    (setTokens fsW s pair).1.hubspotTokens = some pair ∧
    (setTokens true ⟨s.hubspotTokens, s.tokenFile, false⟩ pair).2 =
      some "Error saving tokens to file" ∧
    (setTokens true ⟨s.hubspotTokens, s.tokenFile, false⟩ pair).1.tokenFile =
      s.tokenFile ∧
    (setTokens true ⟨s.hubspotTokens, s.tokenFile, false⟩ pair).1.hubspotTokens =
      some pair := by
  refine ⟨setTokens_hubspotTokens fsW s pair, rfl, rfl, rfl⟩

/-! Claim C6. -/

/-- Claim C6: when no token pair is stored, or the stored pair has no (or a
falsy) refresh token, refreshToken fails immediately: it returns false,
reaches no network call, and leaves the whole state unchanged. -/
theorem c6_refresh_without_refresh_token_is_local (fsW : Bool)
    (s : SystemState) (now : Int) (resp : HttpResult TokenResponse)
    (h : s.hubspotTokens = none ∨
      ∃ tok, s.hubspotTokens = some tok ∧ jsTruthyStr tok.refresh_token = false) :
    (refreshToken fsW s now resp).success = false ∧
    (refreshToken fsW s now resp).networkCalled = false ∧
    (refreshToken fsW s now resp).state = s := by
  rcases h with h | ⟨tok, htok, hfalsy⟩
  · unfold refreshToken
    rw [h]
    exact ⟨rfl, rfl, rfl⟩
  · unfold refreshToken
    rw [htok]
    simp [hfalsy]

/-- Witness for C6 at a concrete empty state. -/
theorem c6_witness :
    (refreshToken false ⟨none, none, false⟩ 0 (.failure none)).success = false ∧
    (refreshToken false ⟨none, none, false⟩ 0 (.failure none)).networkCalled = false ∧
    (refreshToken false ⟨none, none, false⟩ 0 (.failure none)).state =
      ⟨none, none, false⟩ :=
  c6_refresh_without_refresh_token_is_local false ⟨none, none, false⟩ 0
    (.failure none) (Or.inl rfl)

/-! Claim C7. -/

/-- Claim C7: a callback with an absent (falsy) authorization code answers
MissingCode at once, reaches no network call and changes nothing; with a
code present and a successful exchange, the pair built from the response is
written into the store. -/
theorem c7_callback_missing_code_and_success (fsW : Bool) (s : SystemState)
    (now : Int) (code : Option String) (resp : HttpResult TokenResponse) :
    (jsTruthyStr code = false →
      (handleOAuthCallback fsW s now code resp).result = CallbackResult.missingCode ∧
      (handleOAuthCallback fsW s now code resp).networkCalled = false ∧
      (handleOAuthCallback fsW s now code resp).state = s) ∧
    (∀ data, jsTruthyStr code = true → resp = .success data →
      (handleOAuthCallback fsW s now code resp).result = CallbackResult.redirectContacts ∧
      (handleOAuthCallback fsW s now code resp).state.hubspotTokens =
        some { access_token := data.access_token
               refresh_token := data.refresh_token
               expiry_date := data.expires_in.map (fun e => now + e * 1000)
               expires_in := none }) := by
  constructor
  · intro hfalsy
    unfold handleOAuthCallback
    simp [hfalsy]
  · intro data htruthy hresp
    subst hresp
    unfold handleOAuthCallback
    simp [htruthy, setTokens_hubspotTokens]

/-- Witness for C7: the missing-code branch at an empty state, and the
success branch writing the exchanged pair. -/
theorem c7_witness :
    (handleOAuthCallback false ⟨none, none, false⟩ 0 none (.failure none)).result =
      CallbackResult.missingCode ∧
    (handleOAuthCallback false ⟨none, none, false⟩ 0 (some "authcode")
        (.success ⟨some "acc", some "ref", some 10⟩)).state.hubspotTokens =
      some ⟨some "acc", some "ref", some 10000, none⟩ :=
  ⟨((c7_callback_missing_code_and_success false ⟨none, none, false⟩ 0 none
      (.failure none)).1 (by decide)).1,
   by
    have h := (c7_callback_missing_code_and_success false ⟨none, none, false⟩ 0
      (some "authcode") (.success ⟨some "acc", some "ref", some 10⟩)).2
      ⟨some "acc", some "ref", some 10⟩ (by decide) rfl
    exact h.2⟩

/-! Claim C9. -/

/-- Claim C9: in development with a working filesystem, setTokens then
loadTokens (a simulated restart) restores the same pair; in production, with
no file, or with a corrupt file, loadTokens returns none — and it is a total
function, so no error is raised. -/
theorem c9_set_load_roundtrip (s : SystemState) (pair : TokenPair) (p : Bool)
    (f : Option FileContent) (hdev : s.isProduction = false) :
    loadTokens false ((setTokens false s pair).1.tokenFile) = some pair ∧
    loadTokens true f = none ∧
    loadTokens p none = none ∧
    loadTokens false (some FileContent.corrupt) = none := by
  refine ⟨?_, rfl, ?_, rfl⟩
  · unfold setTokens saveTokens
    simp [hdev, loadTokens]
  · unfold loadTokens
    split <;> rfl

/-- Witness for C9 at a concrete development state. -/
theorem c9_witness :
    loadTokens false
      ((setTokens false ⟨none, none, false⟩
        ⟨some "acc", some "ref", some 99, none⟩).1.tokenFile) =
      some ⟨some "acc", some "ref", some 99, none⟩ ∧
    loadTokens true none = none ∧
    loadTokens false (some FileContent.corrupt) = none :=
  ⟨(c9_set_load_roundtrip ⟨none, none, false⟩
      ⟨some "acc", some "ref", some 99, none⟩ true none rfl).1,
   (c9_set_load_roundtrip ⟨none, none, false⟩
      ⟨some "acc", some "ref", some 99, none⟩ true none rfl).2.1,
   (c9_set_load_roundtrip ⟨none, none, false⟩
      ⟨some "acc", some "ref", some 99, none⟩ true none rfl).2.2.2⟩

/-! Claim C10. -/

/-- Claim C10: check-token reports isExpired = true whenever no token is
stored or the stored token has no expiry date; with an expiry date stored
(and a non-negative clock) it compares against the exact expiry instant,
now >= expiry_date; and, unlike the proxied-call precondition, there is no
5-minute margin: a token expiring within the margin but still in the future
is reported as not expired even while the handlers' proactive check fires. -/
theorem c10_check_token_exact_expiry (s : SystemState) (now : Int) :
    (s.hubspotTokens = none → (checkTokenStatus s now).isExpired = true) ∧
    (∀ tok, s.hubspotTokens = some tok → tok.expiry_date = none →
      (checkTokenStatus s now).isExpired = true) ∧
    (∀ tok e, s.hubspotTokens = some tok → tok.expiry_date = some e → 0 ≤ now →
      (checkTokenStatus s now).isExpired = decide (now ≥ e)) ∧
    (∀ tok e, s.hubspotTokens = some tok → tok.expiry_date = some e → 0 ≤ now →
      now < e → e ≤ now + 5 * 60 * 1000 →
      (checkTokenStatus s now).isExpired = false ∧
      tokenNeedsRefresh tok now = true) := by
  refine ⟨?_, ?_, ?_, ?_⟩
  · intro h
    simp [checkTokenStatus, h]
  · intro tok htok hexp
    simp [checkTokenStatus, htok, hexp]
  · intro tok e htok hexp hnow
    by_cases he : e = 0
    · subst he
      simp [checkTokenStatus, htok, hexp, ge_iff_le, hnow]
    · simp [checkTokenStatus, htok, hexp, he]
  · intro tok e htok hexp hnow hfut hmargin
    constructor
    · have hne : ¬ (now ≥ e) := by omega
      have he : ¬ e = 0 := by omega
      simp [checkTokenStatus, htok, hexp, hne, he]
    · have he : e ≠ 0 := by omega
      simp [tokenNeedsRefresh, hexp, he]
      omega

/-- Witness for C10: a token expiring 2 minutes after now = 0 is reported
not expired by check-token while the handlers' proactive check fires. -/
theorem c10_witness :
    (checkTokenStatus ⟨some ⟨some "acc", some "ref", some 120000, none⟩, none, false⟩
        0).isExpired = false ∧
    tokenNeedsRefresh ⟨some "acc", some "ref", some 120000, none⟩ 0 = true :=
  (c10_check_token_exact_expiry
      ⟨some ⟨some "acc", some "ref", some 120000, none⟩, none, false⟩ 0).2.2.2
    ⟨some "acc", some "ref", some 120000, none⟩ 120000 rfl rfl (by decide)
    (by decide) (by decide)

/-! Claim C3. -/

/-- A 2xx token-endpoint body with no access_token field. -/
def c3_resp : HttpResult TokenResponse :=
  .success { access_token := none, refresh_token := some "ref", expires_in := some 3600 }

/-- The callback outcome on that body, starting from an empty store. -/
def c3_out : CallbackOutput :=
  handleOAuthCallback false ⟨none, none, false⟩ 0 (some "authcode") c3_resp

/-- Counterexample to C3: the claim says both refresh and the code exchange
treat a success body lacking access_token as failure and write nothing. The
callback path (lines 286-293) has no such check: on this concrete input it
reports success (redirects to the contacts page) and writes a pair with an
absent access_token into the store. -/
theorem c3_counterexample :
    c3_out.result = CallbackResult.redirectContacts ∧
    c3_out.state.hubspotTokens =
      some { access_token := none, refresh_token := some "ref",
             expiry_date := some 3600000, expires_in := none } ∧
    c3_out.state.hubspotTokens ≠ none := by
  decide

/-- Claim C3 amended: refreshToken does treat a success body whose
access_token is absent (or empty) as failure, writing nothing and leaving
the state unchanged; but the code-exchange callback stores the response
fields unconditionally and reports success even when access_token is
missing. -/
theorem c3_missing_access_token (fsW : Bool) (s : SystemState) (now : Int)
    (data : TokenResponse) (hacc : jsTruthyStr data.access_token = false) :
    ((refreshToken fsW s now (.success data)).success = false ∧
     (refreshToken fsW s now (.success data)).state = s) ∧
    (∀ code, jsTruthyStr code = true →
      (handleOAuthCallback fsW s now code (.success data)).result =
        CallbackResult.redirectContacts ∧
      (handleOAuthCallback fsW s now code (.success data)).state.hubspotTokens =
        some { access_token := data.access_token
               refresh_token := data.refresh_token
               expiry_date := data.expires_in.map (fun e => now + e * 1000)
               expires_in := none }) := by
  constructor
  · cases htok : s.hubspotTokens with
    | none =>
      unfold refreshToken
      rw [htok]
      exact ⟨rfl, rfl⟩
    | some tok =>
      unfold refreshToken
      rw [htok]
      by_cases hr : jsTruthyStr tok.refresh_token
      · simp [hr, hacc]
      · simp [hr]
  · intro code hcode
    unfold handleOAuthCallback
    simp [hcode, setTokens_hubspotTokens]

/-- Witness for C3's amended theorem at concrete inputs: the refresh side
fails without a write, the callback side writes the broken pair. -/
theorem c3_witness :
    ((refreshToken false ⟨some ⟨some "a", some "r", some 5, none⟩, none, false⟩ 0
        (.success ⟨none, some "ref", some 3600⟩)).success = false ∧
     (refreshToken false ⟨some ⟨some "a", some "r", some 5, none⟩, none, false⟩ 0
        (.success ⟨none, some "ref", some 3600⟩)).state =
       ⟨some ⟨some "a", some "r", some 5, none⟩, none, false⟩) ∧
    (handleOAuthCallback false ⟨some ⟨some "a", some "r", some 5, none⟩, none, false⟩ 0
        (some "authcode") (.success ⟨none, some "ref", some 3600⟩)).state.hubspotTokens =
      some ⟨none, some "ref", some 3600000, none⟩ :=
  ⟨(c3_missing_access_token false ⟨some ⟨some "a", some "r", some 5, none⟩, none, false⟩
      0 ⟨none, some "ref", some 3600⟩ (by decide)).1,
   ((c3_missing_access_token false ⟨some ⟨some "a", some "r", some 5, none⟩, none, false⟩
      0 ⟨none, some "ref", some 3600⟩ (by decide)).2 (some "authcode") (by decide)).2⟩

/-! Claim C5. -/

/-- A state whose stored token expires far in the future. -/
def c5_state : SystemState :=
  ⟨some { access_token := some "acc", refresh_token := some "ref",
          expiry_date := some 10000000, expires_in := none }, none, false⟩

/-- A successful refresh at time 1000 whose reported lifetime is 5 seconds:
the derived expiry, 1000 + 5 * 1000 = 6000, is far before the stored
10000000. -/
def c5_result : RefreshResult :=
  refreshToken false c5_state 1000
    (.success { access_token := some "acc2", refresh_token := some "ref2",
                expires_in := some 5 })

/-- Counterexample to C5: a successful refresh can move expiresAt strictly
backwards, because lines 75-81 set expiry_date to the refresh time plus the
newly reported lifetime with no comparison against the stored value. -/
theorem c5_counterexample :
    c5_result.success = true ∧
    c5_result.state.hubspotTokens.map TokenPair.expiry_date = some (some 6000) ∧
    (6000 : Int) < 10000000 := by
  decide

/-- Claim C5 amended: a failed refresh leaves the whole state unchanged, and
a successful refresh sets expiry_date to the refresh time plus the reported
expires_in (in milliseconds) — a value that need not exceed, and can
regress below, the previously stored expiry. -/
theorem c5_refresh_expiry_update (fsW : Bool) (s : SystemState) (now : Int)
    (resp : HttpResult TokenResponse) :
    ((refreshToken fsW s now resp).success = false →
      (refreshToken fsW s now resp).state = s) ∧
    (∀ data, resp = .success data → (refreshToken fsW s now resp).success = true →
      (refreshToken fsW s now resp).state.hubspotTokens.map TokenPair.expiry_date =
        some (data.expires_in.map (fun e => now + e * 1000))) := by
  constructor
  · intro hfail
    cases htok : s.hubspotTokens with
    | none =>
      unfold refreshToken
      rw [htok]
    | some tok =>
      by_cases hr : jsTruthyStr tok.refresh_token
      · cases resp with
        | failure st =>
          unfold refreshToken
          rw [htok]
          simp [hr]
        | success data =>
          by_cases hacc : jsTruthyStr data.access_token
          · exfalso
            have : (refreshToken fsW s now (.success data)).success = true := by
              unfold refreshToken
              rw [htok]
              simp [hr, hacc]
            rw [this] at hfail
            exact absurd hfail (by decide)
          · unfold refreshToken
            rw [htok]
            simp [hr, hacc]
      · unfold refreshToken
        rw [htok]
        simp [hr]
  · intro data hresp hsucc
    subst hresp
    cases htok : s.hubspotTokens with
    | none =>
      exfalso
      unfold refreshToken at hsucc
      rw [htok] at hsucc
      exact Bool.false_ne_true hsucc
    | some tok =>
      by_cases hr : jsTruthyStr tok.refresh_token
      · by_cases hacc : jsTruthyStr data.access_token
        · unfold refreshToken
          rw [htok]
          simp [hr, hacc, setTokens_hubspotTokens]
        · exfalso
          unfold refreshToken at hsucc
          rw [htok] at hsucc
          simp [hr, hacc] at hsucc
      · exfalso
        unfold refreshToken at hsucc
        rw [htok] at hsucc
        simp [hr] at hsucc

/-- Witness for C5's amended theorem: a network failure leaves the concrete
state untouched, and the concrete successful refresh stores now plus
expires_in seconds. -/
theorem c5_witness :
    (refreshToken false c5_state 1000 (.failure (some 400))).state = c5_state ∧
    (refreshToken false c5_state 1000
        (.success ⟨some "acc2", some "ref2", some 5⟩)).state.hubspotTokens.map
      TokenPair.expiry_date = some (some 6000) :=
  ⟨(c5_refresh_expiry_update false c5_state 1000 (.failure (some 400))).1 (by decide),
   (c5_refresh_expiry_update false c5_state 1000
      (.success ⟨some "acc2", some "ref2", some 5⟩)).2
     ⟨some "acc2", some "ref2", some 5⟩ rfl (by decide)⟩

/-! Claim C2. -/

/-- A stored token passing every precondition, expiring far in the future so
the proactive check does not fire. -/
def c2_tok : TokenPair :=
  { access_token := some "acc", refresh_token := some "ref",
    expiry_date := some 10000000, expires_in := none }

/-- State holding that token. -/
def c2_state : SystemState := ⟨some c2_tok, none, false⟩

/-- The contacts handler at time 0 when the upstream data request fails with
HTTP 401. -/
def c2_contacts : ProxyResult :=
  handleContacts false c2_state 0 (.failure none) (.failure (some 401))

/-- The lists handler at the same inputs. -/
def c2_lists : ProxyResult :=
  handleLists false c2_state 0 (.failure none) (.failure (some 401))

/-- Counterexample to C2: the claim says each handler performs exactly one
reactive refresh-and-retry cycle on an upstream authentication failure. At
this concrete input the preconditions pass, the upstream request fails with
401, and both handlers invoke refreshToken zero times and issue exactly one
upstream request — the catch blocks at lines 483 and 542 surface the
failure directly, so no reactive cycle exists (only the debug endpoints
implement one). -/
theorem c2_counterexample :
    c2_contacts.refreshAttempts = 0 ∧
    c2_contacts.upstreamAttempts = 1 ∧
    c2_contacts.outcome = ProxyOutcome.upstreamError (some 401) ∧
    c2_lists.refreshAttempts = 0 ∧
    c2_lists.upstreamAttempts = 1 ∧
    c2_lists.outcome = ProxyOutcome.upstreamError (some 401) := by
  decide

/-- Claim C2 amended: when the token preconditions pass (and the proactive
refresh, when it fires, succeeds), an upstream failure — authentication
errors included — is surfaced directly as a structured error: the handlers
issue exactly one upstream request, perform no reactive refresh-and-retry
cycle, and at most one refresh ever happens (the proactive one). -/
theorem c2_upstream_failure_not_retried (fsW : Bool) (s : SystemState)
    (now : Int) (rresp : HttpResult TokenResponse) (st : Option Int)
    (tok : TokenPair) (htok : s.hubspotTokens = some tok)
    (hacc : jsTruthyStr tok.access_token = true)
    (href : tokenNeedsRefresh tok now = true →
      (refreshToken fsW s now rresp).success = true) :
    (handleContacts fsW s now rresp (.failure st)).outcome =
      ProxyOutcome.upstreamError st ∧
    (handleContacts fsW s now rresp (.failure st)).upstreamAttempts = 1 ∧
    (handleContacts fsW s now rresp (.failure st)).refreshAttempts ≤ 1 ∧
    (handleLists fsW s now rresp (.failure st)).outcome =
      ProxyOutcome.upstreamError st ∧
    (handleLists fsW s now rresp (.failure st)).upstreamAttempts = 1 ∧
    (handleLists fsW s now rresp (.failure st)).refreshAttempts ≤ 1 := by
  by_cases hnr : tokenNeedsRefresh tok now = true
  · have hs := href hnr
    unfold handleContacts handleLists
    simp [htok, hacc, hnr, hs]
  · unfold handleContacts handleLists
    simp [htok, hacc, hnr]

/-- Witness for C2's amended theorem at the concrete 401 input. -/
theorem c2_witness :
    (handleContacts false c2_state 0 (.failure none) (.failure (some 401))).outcome =
      ProxyOutcome.upstreamError (some 401) ∧
    (handleLists false c2_state 0 (.failure none) (.failure (some 401))).outcome =
      ProxyOutcome.upstreamError (some 401) :=
  ⟨(c2_upstream_failure_not_retried false c2_state 0 (.failure none) (some 401)
      c2_tok rfl (by decide) (by decide)).1,
   (c2_upstream_failure_not_retried false c2_state 0 (.failure none) (some 401)
      c2_tok rfl (by decide) (by decide)).2.2.2.1⟩

/-! Claim C4. -/

/-- Claim C4: with a stored token whose access_token is truthy and whose
expiry lies more than 5 minutes after the (non-negative) clock, neither
handler triggers a refresh and each issues its one upstream request; with
the expiry in the future but at most 5 minutes away, each handler triggers
exactly one refresh before the proxied request, issues the upstream request
when that refresh succeeds, and answers the 401 authentication failure
without touching the upstream when the refresh fails. -/
theorem c4_proactive_refresh_margin (fsW : Bool) (s : SystemState)
    (now e : Int) (rresp : HttpResult TokenResponse)
    (uresp : HttpResult ContactsBody) (lresp : HttpResult ListsBody)
    (tok : TokenPair) (htok : s.hubspotTokens = some tok)
    (hacc : jsTruthyStr tok.access_token = true)
    (hexp : tok.expiry_date = some e) (hnow : 0 ≤ now) :
    (now + 5 * 60 * 1000 < e →
      (handleContacts fsW s now rresp uresp).refreshAttempts = 0 ∧
      (handleContacts fsW s now rresp uresp).upstreamAttempts = 1 ∧
      (handleLists fsW s now rresp lresp).refreshAttempts = 0 ∧
      (handleLists fsW s now rresp lresp).upstreamAttempts = 1) ∧
    (now < e → e ≤ now + 5 * 60 * 1000 →
      (handleContacts fsW s now rresp uresp).refreshAttempts = 1 ∧
      (handleLists fsW s now rresp lresp).refreshAttempts = 1 ∧
      ((refreshToken fsW s now rresp).success = true →
        (handleContacts fsW s now rresp uresp).upstreamAttempts = 1 ∧
        (handleLists fsW s now rresp lresp).upstreamAttempts = 1) ∧
      ((refreshToken fsW s now rresp).success = false →
        (handleContacts fsW s now rresp uresp).outcome = ProxyOutcome.authFailed ∧
        (handleContacts fsW s now rresp uresp).upstreamAttempts = 0 ∧
        (handleLists fsW s now rresp lresp).outcome = ProxyOutcome.authFailed ∧
        (handleLists fsW s now rresp lresp).upstreamAttempts = 0)) := by
  constructor
  · intro hfar
    have hnr : tokenNeedsRefresh tok now = false := by
      unfold tokenNeedsRefresh
      rw [hexp]
      have : ¬ (now ≥ e - 5 * 60 * 1000) := by omega
      simp [this]
      omega
    unfold handleContacts handleLists
    cases uresp <;> cases lresp <;> simp [htok, hacc, hnr]
  · intro hfut hnear
    have hnr : tokenNeedsRefresh tok now = true := by
      unfold tokenNeedsRefresh
      rw [hexp]
      have he : ¬ e = 0 := by omega
      have hge : now ≥ e - 5 * 60 * 1000 := by omega
      simp [he, hge]
      omega
    refine ⟨?_, ?_, ?_, ?_⟩
    · unfold handleContacts
      by_cases hs : (refreshToken fsW s now rresp).success = true
      · cases uresp <;> simp [htok, hacc, hnr, hs]
      · simp [htok, hacc, hnr, hs]
    · unfold handleLists
      by_cases hs : (refreshToken fsW s now rresp).success = true
      · cases lresp <;> simp [htok, hacc, hnr, hs]
      · simp [htok, hacc, hnr, hs]
    · intro hs
      unfold handleContacts handleLists
      cases uresp <;> cases lresp <;> simp [htok, hacc, hnr, hs]
    · intro hf
      unfold handleContacts handleLists
      simp [htok, hacc, hnr, hf]

/-- A token expiring 2 minutes after time 0, for the C4 witness. -/
def c4_tok : TokenPair :=
  { access_token := some "acc", refresh_token := some "ref",
    expiry_date := some 120000, expires_in := none }

/-- State holding the near-expiry token. -/
def c4_state : SystemState := ⟨some c4_tok, none, false⟩

/-- Witness for C4 at concrete inputs: 10 minutes out, no refresh; 2 minutes
out, exactly one refresh, and a failing refresh answers the authentication
failure without reaching the upstream. -/
theorem c4_witness :
    (handleContacts false ⟨some c2_tok, none, false⟩ 0 (.failure none)
        (.success ⟨some []⟩)).refreshAttempts = 0 ∧
    (handleContacts false c4_state 0 (.failure none)
        (.success ⟨some []⟩)).refreshAttempts = 1 ∧
    (handleContacts false c4_state 0 (.failure none)
        (.success ⟨some []⟩)).outcome = ProxyOutcome.authFailed :=
  ⟨((c4_proactive_refresh_margin false ⟨some c2_tok, none, false⟩ 0 10000000
      (.failure none) (.success ⟨some []⟩) (.success ⟨some []⟩) c2_tok rfl
      (by decide) rfl (by decide)).1 (by decide)).1,
   ((c4_proactive_refresh_margin false c4_state 0 120000 (.failure none)
      (.success ⟨some []⟩) (.success ⟨some []⟩) c4_tok rfl (by decide) rfl
      (by decide)).2 (by decide) (by decide)).1,
   (((c4_proactive_refresh_margin false c4_state 0 120000 (.failure none)
      (.success ⟨some []⟩) (.success ⟨some []⟩) c4_tok rfl (by decide) rfl
      (by decide)).2 (by decide) (by decide)).2.2.2 (by decide)).1⟩

end HubspotConnector
